import Mathlib

/-!
Verification of the secret-loader crate (src/loader.rs, src/error.rs,
src/credential.rs, src/serde.rs) via a shallow embedding.

Strings are Lean strings; the prefixes checked by the parser are ASCII, so
Rust byte slicing `val[4..]` / `val[5..]` after a successful
`starts_with` coincides with dropping that many characters.  The process
environment and the filesystem are modelled as explicit oracle states
passed to the resolver; the resolver itself is translated from
`SecretLoader::into_secret`.
-/

/-- Model of Rust `std::convert::Infallible`: an uninhabited error type. -/
inductive Infallible : Type
  deriving DecidableEq

/-- Model of the `secrecy` crate wrapper `Secret<String>` (an external
dependency of the repository).  It holds the plaintext payload opaquely. -/
structure Secret where
  mk ::
  inner : String
  deriving DecidableEq

/-- The explicit, deliberately-named accessor of the `secrecy` wrapper. -/
def Secret.expose_secret (s : Secret) : String := s.inner

/-- Modelled from the spec: the `secrecy` crate (a dependency, not part of the
repository sources) redacts the payload in the default debug representation,
printing a constant marker that does not depend on the wrapped value.  The
marker text follows the crate convention `Secret([REDACTED <type name>])`. -/
def Secret.debugFmt (_ : Secret) : String :=
  "Secret([REDACTED alloc::string::String])"

/-- Model of Rust `str::starts_with` with a string-literal pattern: the
pattern's characters are a prefix of the string's characters.  For valid
UTF-8 data (which Lean strings always are) the Rust byte-prefix check and
this character-prefix check coincide. -/
def strStartsWith (s p : String) : Bool :=
  p.data.isPrefixOf s.data

/-- Model of Rust slicing `s[n..]` where the first `n` characters of `s` are
ASCII (as after a successful match of an ASCII scheme marker): dropping `n`
bytes coincides with dropping `n` characters. -/
def strDrop (s : String) (n : Nat) : String :=
  String.mk (s.data.drop n)

/-- The `SecretLoader` enum from src/loader.rs: `Env(String)`,
`File(Utf8PathBuf)`, `Plain(Secret<String>)`.  A `camino::Utf8PathBuf` is a
UTF-8 string holding a path, so it is modelled as a Lean string. -/
inductive SecretLoader : Type where
  | Env (name : String)
  | File (path : String)
  | Plain (secret : Secret)
  deriving DecidableEq

/-- The `FromStr` implementation for `SecretLoader` (src/loader.rs lines
90-101).  The `?` conversions in the source are on `Infallible` results
(`Utf8PathBuf::from_str` and `Secret<String>` parsing never fail), so each
arm simply wraps the sliced remainder. -/
def SecretLoader.from_str (s : String) : Except Infallible SecretLoader :=
  if strStartsWith s "env:" then
    Except.ok (SecretLoader.Env (strDrop s 4))
  else if strStartsWith s "file:" then
    Except.ok (SecretLoader.File (strDrop s 5))
  else
    Except.ok (SecretLoader.Plain (Secret.mk s))

/-- `SecretLoader::new` (src/loader.rs lines 43-45): parse and unwrap.  The
unwrap cannot panic because the error type is uninhabited. -/
def SecretLoader.new (s : String) : SecretLoader :=
  match SecretLoader.from_str s with
  | Except.ok l => l
  | Except.error e => nomatch e

/-- `SecretLoader::is_env` (src/loader.rs). -/
def SecretLoader.is_env : SecretLoader → Bool
  | SecretLoader.Env _ => true
  | _ => false

/-- `SecretLoader::is_file` (src/loader.rs). -/
def SecretLoader.is_file : SecretLoader → Bool
  | SecretLoader.File _ => true
  | _ => false

/-- `SecretLoader::is_plain` (src/loader.rs). -/
def SecretLoader.is_plain : SecretLoader → Bool
  | SecretLoader.Plain _ => true
  | _ => false

/-- C1: parsing a string into a `SecretLoader` is total: the declared error
type is uninhabited, every input parses successfully, and an input matching
neither scheme becomes a `Plain` reference holding the input verbatim. -/
theorem secretLoader_parse_total (s : String) :
    (∀ e : Infallible, False) ∧
    (∃ l, SecretLoader.from_str s = Except.ok l) ∧
    (strStartsWith s "env:" = false → strStartsWith s "file:" = false →
      SecretLoader.from_str s = Except.ok (SecretLoader.Plain (Secret.mk s))) := by
  refine ⟨?_, ?_, ?_⟩
  · intro e
    cases e
  · unfold SecretLoader.from_str
    split
    · exact ⟨_, rfl⟩
    · split
      · exact ⟨_, rfl⟩
      · exact ⟨_, rfl⟩
  · intro h1 h2
    simp [SecretLoader.from_str, h1, h2]

/-- Witness for C1 at a concrete input containing both scheme markers only
as non-prefix substrings. -/
theorem secretLoader_parse_total_witness :
    SecretLoader.from_str "xenv:file:y"
      = Except.ok (SecretLoader.Plain (Secret.mk "xenv:file:y")) :=
  (secretLoader_parse_total "xenv:file:y").2.2 (by decide) (by decide)

/-- C2: every string starting with the 4-character scheme marker of the
environment variant parses to `Env` holding the remainder verbatim. -/
theorem secretLoader_parse_env (s : String) (h : strStartsWith s "env:" = true) :
    SecretLoader.from_str s = Except.ok (SecretLoader.Env (strDrop s 4)) := by
  simp [SecretLoader.from_str, h]

/-- Witness for C2 at the minimal input, whose remainder is empty. -/
theorem secretLoader_parse_env_witness :
    SecretLoader.from_str "env:" = Except.ok (SecretLoader.Env "") := by
  have h := secretLoader_parse_env "env:" (by decide)
  simpa using h

/-- C3: every string not starting with the environment scheme marker but
starting with the 5-character file scheme marker parses to `File` holding
the remainder verbatim; the parser consults no filesystem state. -/
theorem secretLoader_parse_file (s : String)
    (h1 : strStartsWith s "env:" = false) (h2 : strStartsWith s "file:" = true) :
    SecretLoader.from_str s = Except.ok (SecretLoader.File (strDrop s 5)) := by
  simp [SecretLoader.from_str, h1, h2]

/-- Witness for C3 at a concrete path that does not exist. -/
theorem secretLoader_parse_file_witness :
    SecretLoader.from_str "file:/does/not/exist"
      = Except.ok (SecretLoader.File "/does/not/exist") := by
  have h := secretLoader_parse_file "file:/does/not/exist" (by decide) (by decide)
  simpa using h

/-- Model of the value a process environment associates to a variable name:
either valid unicode text, or raw non-unicode data (which `std::env::var`
reports as an error). -/
inductive EnvValue : Type where
  | unicode (value : String)
  | nonUnicode (raw : List Nat)
  deriving DecidableEq

/-- The process environment, modelled as a map from variable names to
optional values. -/
def EnvState : Type := String → Option EnvValue

/-- Model of `std::env::VarError`: the variable is unset, or its value is
not valid unicode (carrying the raw data). -/
inductive VarError : Type where
  | NotPresent
  | NotUnicode (raw : List Nat)
  deriving DecidableEq

/-- Model of `std::env::var name` against an environment state. -/
def envVar (st : EnvState) (name : String) : Except VarError String :=
  match st name with
  | none => Except.error VarError.NotPresent
  | some (EnvValue.unicode v) => Except.ok v
  | some (EnvValue.nonUnicode raw) => Except.error (VarError.NotUnicode raw)

/-- Model of a filesystem node as seen by `std::fs::read_to_string`: a
readable text file, a file whose bytes are not valid text, a directory, or
a node the process may not read. -/
inductive FsNode : Type where
  | textFile (content : String)
  | binFile (raw : List Nat)
  | dir
  | unreadable
  deriving DecidableEq

/-- The filesystem, modelled as a map from paths to optional nodes. -/
def FsState : Type := String → Option FsNode

/-- Model of `std::io::Error` restricted to the kinds
`std::fs::read_to_string` produces in this model. -/
inductive IoError : Type where
  | NotFound
  | InvalidData
  | IsADirectory
  | PermissionDenied
  deriving DecidableEq

/-- Model of `std::fs::read_to_string path` against a filesystem state. -/
def readToString (st : FsState) (path : String) : Except IoError String :=
  match st path with
  | none => Except.error IoError.NotFound
  | some (FsNode.textFile c) => Except.ok c
  | some (FsNode.binFile _) => Except.error IoError.InvalidData
  | some FsNode.dir => Except.error IoError.IsADirectory
  | some FsNode.unreadable => Except.error IoError.PermissionDenied

/-- The `LoadError` enum from src/error.rs lines 38-45: exactly two
variants, each wrapping the underlying platform error. -/
inductive LoadError : Type where
  | Io (cause : IoError)
  | Env (cause : VarError)
  deriving DecidableEq

/-- The `From<IoError> for LoadError` implementation (src/error.rs lines
65-69), used by the `?` operator in `into_secret`. -/
def LoadError.fromIoError (e : IoError) : LoadError := LoadError.Io e

/-- The `From<VarError> for LoadError` implementation (src/error.rs lines
71-75), used by the `?` operator in `into_secret`. -/
def LoadError.fromVarError (e : VarError) : LoadError := LoadError.Env e

/-- The wrapped platform cause of a `LoadError`, as returned by the
`Error::source` implementation in src/error.rs lines 57-63 (which returns
`Some` of the wrapped error in both arms). -/
inductive ErrCause : Type where
  | io (e : IoError)
  | env (e : VarError)
  deriving DecidableEq

/-- The `Error::source` implementation for `LoadError` (src/error.rs). -/
def LoadError.source : LoadError → Option ErrCause
  | LoadError.Io e => some (ErrCause.io e)
  | LoadError.Env e => some (ErrCause.env e)

/-- `SecretLoader::into_secret` (src/loader.rs lines 50-57), with the
environment and filesystem passed as explicit oracle states.  The `?`
operator applies the `From` conversions of src/error.rs; the
`.parse().expect("Infallible")` on the looked-up string wraps it in a
`Secret` and cannot fail. -/
def SecretLoader.into_secret (l : SecretLoader) (envSt : EnvState)
    (fsSt : FsState) : Except LoadError Secret :=
  match l with
  | SecretLoader.Env env_var =>
      match envVar envSt env_var with
      | Except.ok v => Except.ok (Secret.mk v)
      | Except.error e => Except.error (LoadError.fromVarError e)
  | SecretLoader.File path =>
      match readToString fsSt path with
      | Except.ok v => Except.ok (Secret.mk v)
      | Except.error e => Except.error (LoadError.fromIoError e)
  | SecretLoader.Plain secret => Except.ok secret

/-- C4: resolving an `Env` reference returns exactly the variable's current
value when it is set to valid text, and fails with `LoadError.Env` wrapping
the underlying `VarError` exactly when the variable is unset or its value
is not valid text. -/
theorem env_resolution (envSt : EnvState) (fsSt : FsState) (name : String) :
    (∀ v, envSt name = some (EnvValue.unicode v) →
      SecretLoader.into_secret (SecretLoader.Env name) envSt fsSt
        = Except.ok (Secret.mk v)) ∧
    (envSt name = none →
      SecretLoader.into_secret (SecretLoader.Env name) envSt fsSt
        = Except.error (LoadError.Env VarError.NotPresent)) ∧
    (∀ raw, envSt name = some (EnvValue.nonUnicode raw) →
      SecretLoader.into_secret (SecretLoader.Env name) envSt fsSt
        = Except.error (LoadError.Env (VarError.NotUnicode raw))) ∧
    ((∃ sec, SecretLoader.into_secret (SecretLoader.Env name) envSt fsSt
        = Except.ok sec) ↔ (∃ v, envSt name = some (EnvValue.unicode v))) := by
  refine ⟨?_, ?_, ?_, ?_⟩
  · intro v h
    simp [SecretLoader.into_secret, envVar, h]
  · intro h
    simp [SecretLoader.into_secret, envVar, h, LoadError.fromVarError]
  · intro raw h
    simp [SecretLoader.into_secret, envVar, h, LoadError.fromVarError]
  · constructor
    · rintro ⟨sec, h⟩
      rcases hv : envSt name with _ | val
      · simp [SecretLoader.into_secret, envVar, hv] at h
      · rcases val with v | raw
        · exact ⟨v, rfl⟩
        · simp [SecretLoader.into_secret, envVar, hv] at h
    · rintro ⟨v, h⟩
      exact ⟨Secret.mk v, by simp [SecretLoader.into_secret, envVar, h]⟩

/-- A concrete environment for the witnesses: the variable SECRET is set to
the text superenvsecret and every other variable is unset. -/
def envWithSecret : EnvState :=
  fun n => if n = "SECRET" then some (EnvValue.unicode "superenvsecret") else none

/-- A concrete empty filesystem for the witnesses. -/
def emptyFs : FsState := fun _ => none

/-- Witness for C4: with SECRET set, resolution returns its value. -/
theorem env_resolution_witness :
    SecretLoader.into_secret (SecretLoader.Env "SECRET") envWithSecret emptyFs
      = Except.ok (Secret.mk "superenvsecret") :=
  (env_resolution envWithSecret emptyFs "SECRET").1 "superenvsecret" (by decide)

/-- C5: resolving a `File` reference returns exactly the file's full text
content when a readable text file is at the path, and fails with
`LoadError.Io` wrapping the underlying `IoError` when the path is missing,
a directory, not valid text, unreadable, or on any other read error. -/
theorem file_resolution (envSt : EnvState) (fsSt : FsState) (path : String) :
    (∀ c, fsSt path = some (FsNode.textFile c) →
      SecretLoader.into_secret (SecretLoader.File path) envSt fsSt
        = Except.ok (Secret.mk c)) ∧
    (fsSt path = none →
      SecretLoader.into_secret (SecretLoader.File path) envSt fsSt
        = Except.error (LoadError.Io IoError.NotFound)) ∧
    (fsSt path = some FsNode.dir →
      SecretLoader.into_secret (SecretLoader.File path) envSt fsSt
        = Except.error (LoadError.Io IoError.IsADirectory)) ∧
    (∀ raw, fsSt path = some (FsNode.binFile raw) →
      SecretLoader.into_secret (SecretLoader.File path) envSt fsSt
        = Except.error (LoadError.Io IoError.InvalidData)) ∧
    (fsSt path = some FsNode.unreadable →
      SecretLoader.into_secret (SecretLoader.File path) envSt fsSt
        = Except.error (LoadError.Io IoError.PermissionDenied)) ∧
    (∀ e, readToString fsSt path = Except.error e →
      SecretLoader.into_secret (SecretLoader.File path) envSt fsSt
        = Except.error (LoadError.Io e)) := by
  refine ⟨?_, ?_, ?_, ?_, ?_, ?_⟩
  · intro c h
    simp [SecretLoader.into_secret, readToString, h]
  · intro h
    simp [SecretLoader.into_secret, readToString, h, LoadError.fromIoError]
  · intro h
    simp [SecretLoader.into_secret, readToString, h, LoadError.fromIoError]
  · intro raw h
    simp [SecretLoader.into_secret, readToString, h, LoadError.fromIoError]
  · intro h
    simp [SecretLoader.into_secret, readToString, h, LoadError.fromIoError]
  · intro e h
    simp [SecretLoader.into_secret, h, LoadError.fromIoError]

/-- A concrete filesystem for the witnesses: a single readable text file. -/
def fsWithSecret : FsState :=
  fun p => if p = "/tmp/x" then some (FsNode.textFile "superfilesecret") else none

/-- A concrete empty environment for the witnesses. -/
def emptyEnv : EnvState := fun _ => none

/-- Witness for C5: the file at /tmp/x resolves to its full content. -/
theorem file_resolution_witness :
    SecretLoader.into_secret (SecretLoader.File "/tmp/x") emptyEnv fsWithSecret
      = Except.ok (Secret.mk "superfilesecret") :=
  (file_resolution emptyEnv fsWithSecret "/tmp/x").1 "superfilesecret" (by decide)

/-- C6: resolving a `Plain` reference always succeeds, returns the held
value unchanged, and is independent of the environment and filesystem
states (no lookup of either is performed). -/
theorem plain_resolution (sec : Secret) (envSt envSt2 : EnvState)
    (fsSt fsSt2 : FsState) :
    SecretLoader.into_secret (SecretLoader.Plain sec) envSt fsSt
      = Except.ok sec ∧
    SecretLoader.into_secret (SecretLoader.Plain sec) envSt fsSt
      = SecretLoader.into_secret (SecretLoader.Plain sec) envSt2 fsSt2 :=
  ⟨rfl, rfl⟩

/-- C7: the resolution error type has exactly two kinds, Io and Env, which
are mutually exclusive; every error produced by the resolver is one of the
two; and both wrap the underlying platform cause, which the source accessor
always returns (never discarded). -/
theorem loadError_taxonomy (err : LoadError) :
    ((∃ e, err = LoadError.Io e) ∨ (∃ e, err = LoadError.Env e)) ∧
    (¬ ((∃ e, err = LoadError.Io e) ∧ (∃ e, err = LoadError.Env e))) ∧
    (∀ e, LoadError.source (LoadError.Io e) = some (ErrCause.io e)) ∧
    (∀ e, LoadError.source (LoadError.Env e) = some (ErrCause.env e)) ∧
    (∃ c, LoadError.source err = some c) ∧
    (∀ l envSt fsSt, SecretLoader.into_secret l envSt fsSt = Except.error err →
      (∃ e, err = LoadError.Io e) ∨ (∃ e, err = LoadError.Env e)) := by
  refine ⟨?_, ?_, fun e => rfl, fun e => rfl, ?_, fun _ _ _ _ => ?_⟩
  · cases err with
    | Io e => exact Or.inl ⟨e, rfl⟩
    | Env e => exact Or.inr ⟨e, rfl⟩
  · rintro ⟨⟨e1, h1⟩, ⟨e2, h2⟩⟩
    rw [h1] at h2
    exact LoadError.noConfusion h2
  · cases err with
    | Io e => exact ⟨ErrCause.io e, rfl⟩
    | Env e => exact ⟨ErrCause.env e, rfl⟩
  · cases err with
    | Io e => exact Or.inl ⟨e, rfl⟩
    | Env e => exact Or.inr ⟨e, rfl⟩

/-- Witness for C7: the taxonomy at a concrete error value, with the inner
implication discharged at a concrete resolver call. -/
theorem loadError_taxonomy_witness :
    (∃ e, LoadError.Env VarError.NotPresent = LoadError.Io e) ∨
    (∃ e, LoadError.Env VarError.NotPresent = LoadError.Env e) :=
  (loadError_taxonomy (LoadError.Env VarError.NotPresent)).2.2.2.2.2
    (SecretLoader.Env "SECRET") emptyEnv emptyFs rfl

/-- C9: for every `SecretLoader` value exactly one of the three predicates
is true, and on a parsed string the true predicate corresponds to the
variant the parser chose: `is_env` holds iff the source started with the
environment scheme marker, `is_file` iff it started with the file scheme
marker (and not the environment one), and `is_plain` otherwise. -/
theorem predicates_partition :
    (∀ l : SecretLoader,
      (l.is_env || l.is_file || l.is_plain) = true ∧
      (l.is_env && l.is_file) = false ∧
      (l.is_env && l.is_plain) = false ∧
      (l.is_file && l.is_plain) = false) ∧
    (∀ s : String,
      (SecretLoader.new s).is_env = strStartsWith s "env:" ∧
      (SecretLoader.new s).is_file
        = (!strStartsWith s "env:" && strStartsWith s "file:") ∧
      (SecretLoader.new s).is_plain
        = (!strStartsWith s "env:" && !strStartsWith s "file:")) := by
  constructor
  · intro l
    cases l <;>
      simp [SecretLoader.is_env, SecretLoader.is_file, SecretLoader.is_plain]
  · intro s
    by_cases h1 : strStartsWith s "env:" = true
    · simp [SecretLoader.new, SecretLoader.from_str, h1,
        SecretLoader.is_env, SecretLoader.is_file, SecretLoader.is_plain]
    · rw [Bool.not_eq_true] at h1
      by_cases h2 : strStartsWith s "file:" = true
      · simp [SecretLoader.new, SecretLoader.from_str, h1, h2,
          SecretLoader.is_env, SecretLoader.is_file, SecretLoader.is_plain]
      · rw [Bool.not_eq_true] at h2
        simp [SecretLoader.new, SecretLoader.from_str, h1, h2,
          SecretLoader.is_env, SecretLoader.is_file, SecretLoader.is_plain]

/-- The `Credential` enum from src/credential.rs lines 15-20: a duplicate
of `SecretLoader` with the same three variants and payloads. -/
inductive Credential : Type where
  | Env (name : String)
  | File (path : String)
  | Plain (secret : Secret)
  deriving DecidableEq

/-- The `FromStr` implementation for `Credential` (src/credential.rs lines
36-47), textually duplicating the `SecretLoader` parser. -/
def Credential.from_str (s : String) : Except Infallible Credential :=
  if strStartsWith s "env:" then
    Except.ok (Credential.Env (strDrop s 4))
  else if strStartsWith s "file:" then
    Except.ok (Credential.File (strDrop s 5))
  else
    Except.ok (Credential.Plain (Secret.mk s))

/-- The classification step of the hand-written serde `Deserialize`
implementation for `Credential` (src/serde.rs lines 24-37), applied to the
string obtained from `String::deserialize`.  It uses `(&val[4..]).into()`,
`Utf8Path::new(&val[5..]).into()` and `val.parse().unwrap()`, which build
the same payloads as the FromStr implementations. -/
def Credential.deserialize_classify (s : String) : Credential :=
  if strStartsWith s "env:" then
    Credential.Env (strDrop s 4)
  else if strStartsWith s "file:" then
    Credential.File (strDrop s 5)
  else
    Credential.Plain (Secret.mk s)

/-- The constructor-wise correspondence between the two duplicated enums,
used to compare parses across the types. -/
def credOfLoader : SecretLoader → Credential
  | SecretLoader.Env n => Credential.Env n
  | SecretLoader.File p => Credential.File p
  | SecretLoader.Plain sec => Credential.Plain sec

/-- C10: the three duplicated string-classification implementations agree
on every input: the `SecretLoader` FromStr parse (transported along the
constructor correspondence), the `Credential` FromStr parse, and the parse
inside the serde `Deserialize` implementation produce the same variant with
an identical payload. -/
theorem parsers_agree (s : String) :
    Except.map credOfLoader (SecretLoader.from_str s) = Credential.from_str s ∧
    Credential.from_str s
      = Except.ok (Credential.deserialize_classify s) := by
  constructor
  · unfold SecretLoader.from_str Credential.from_str
    by_cases h1 : strStartsWith s "env:" = true
    · simp [h1, Except.map, credOfLoader]
    · rw [Bool.not_eq_true] at h1
      by_cases h2 : strStartsWith s "file:" = true
      · simp [h1, h2, Except.map, credOfLoader]
      · rw [Bool.not_eq_true] at h2
        simp [h1, h2, Except.map, credOfLoader]
  · unfold Credential.from_str Credential.deserialize_classify
    by_cases h1 : strStartsWith s "env:" = true
    · simp [h1]
    · rw [Bool.not_eq_true] at h1
      by_cases h2 : strStartsWith s "file:" = true
      · simp [h1, h2]
      · rw [Bool.not_eq_true] at h2
        simp [h1, h2]

/-- The quoted rendering that Rust `Debug` gives a string payload (escape
sequences inside the payload are not modelled; no payload used in the
theorems below needs them). -/
def quoteStr (s : String) : String := "\"" ++ s ++ "\""

/-- The derived `Debug` rendering of a `SecretLoader` (the
`#[derive(Debug)]` on the enum in src/loader.rs lines 21-29): the variant
name followed by the payload's debug rendering in parentheses.  The Plain
payload renders through the redacting `Secret.debugFmt`. -/
def SecretLoader.debugFmt : SecretLoader → String
  | SecretLoader.Env n => "Env(" ++ quoteStr n ++ ")"
  | SecretLoader.File p => "File(" ++ quoteStr p ++ ")"
  | SecretLoader.Plain sec => "Plain(" ++ Secret.debugFmt sec ++ ")"

/-- Substring containment on strings: at some split point of the haystack
the needle starts. -/
def strContains (hay sub : String) : Bool :=
  (List.range (hay.length + 1)).any (fun i => strStartsWith (strDrop hay i) sub)

/-- C8 counterexample: the claim that the default debug rendering of a
`Plain` reference never contains the payload string fails at the concrete
payload "Plain": the derived rendering starts with the variant name, so
the payload occurs in it as a substring even though nothing about the
payload is revealed. -/
theorem plain_debug_contains_payload :
    strContains
      (SecretLoader.debugFmt (SecretLoader.Plain (Secret.mk "Plain")))
      "Plain" = true := by decide

/-- C8 amended: the default debug rendering of a `Plain` reference is one
constant redacted string, identical for every payload — it is independent
of the payload and so never displays it; the raw value is recoverable only
through the explicit accessor.  (The rendering can still contain the
payload as a substring when the payload happens to occur in the constant
text, as the counterexample shows.) -/
theorem plain_debug_redacted (v : String) :
    SecretLoader.debugFmt (SecretLoader.Plain (Secret.mk v))
      = "Plain(Secret([REDACTED alloc::string::String]))" ∧
    Secret.expose_secret (Secret.mk v) = v :=
  ⟨rfl, rfl⟩
